import Mathlib

/-
Verification of the slew-rate limiter module (rate_limiter.c / rate_limiter.h).

The C module keeps one heap-allocated instance per limiter:

  typedef struct rate_limiter_s
  {
      float32_t  x_prev;   // Previous value of input
      float32_t  k_rise;   // Rising slew rate factor
      float32_t  k_fall;   // Falling slew rate factor
      float32_t  dt;       // Period of update
      bool       is_init;  // Rate limiter initialization success flag
  } rate_limiter_t;

and exposes rate_limiter_init, rate_limiter_update, rate_limiter_is_init and
rate_limiter_change_rate.  We shallowly embed the module here:

* float32_t is modelled by the exact rationals, so the algebraic and
  control-flow content of the code is captured exactly;
* the opaque handle p_rate_limiter_t (a possibly NULL pointer to an instance)
  is modelled by Option rate_limiter_t;
* heap nondeterminism of malloc is an explicit Boolean parameter telling
  whether allocation succeeds;
* the out-parameter p_rl_inst of rate_limiter_init is modelled by passing the
  caller's current handle value in and returning the handle value after the
  call (the C-level check that the out-pointer itself is non-NULL is the
  caller passing a valid address, which the embedding assumes).
-/

namespace RateLimiter

/-- Status codes from rate_limiter.h. -/
inductive rate_limiter_status_t where
  | eRATE_LIMITER_OK
  | eRATE_LIMITER_ERROR
  deriving DecidableEq

export rate_limiter_status_t (eRATE_LIMITER_OK eRATE_LIMITER_ERROR)

/-- The instance struct rate_limiter_t from rate_limiter.c, with float32_t
modelled by the rationals.  Field order follows the C struct. -/
structure rate_limiter_t where
  x_prev : ℚ
  k_rise : ℚ
  k_fall : ℚ
  dt : ℚ
  is_init : Bool
  deriving DecidableEq

/-- rate_limiter_calc_rate_factor from rate_limiter.c:
returns slew_rate * dt. -/
def rate_limiter_calc_rate_factor (dt : ℚ) (slew_rate : ℚ) : ℚ :=
  slew_rate * dt

/-- rate_limiter_init from rate_limiter.c.  `alloc` tells whether the
malloc call succeeds; `handle` is the caller's handle value *p_rl_inst before
the call.  Returns the handle value after the call together with the returned
status.  Mirrors the C control flow: status starts as OK; when dt > 0 the
instance is allocated and, if allocation succeeded, fully initialized (the
status is left untouched on allocation failure, exactly as in the C source,
where the inner NULL-check has no else branch); when dt <= 0 the handle is
not written and status becomes ERROR. -/
def rate_limiter_init (alloc : Bool) (handle : Option rate_limiter_t)
    (rise_rate fall_rate dt : ℚ) :
    Option rate_limiter_t × rate_limiter_status_t :=
  if dt > 0 then
    if alloc then
      (some { x_prev := 0
              k_rise := rate_limiter_calc_rate_factor dt rise_rate
              k_fall := rate_limiter_calc_rate_factor dt fall_rate
              dt := dt
              is_init := true }, eRATE_LIMITER_OK)
    else
      -- malloc returned NULL: *p_rl_inst holds NULL, status is still OK
      (none, eRATE_LIMITER_OK)
  else
    (handle, eRATE_LIMITER_ERROR)

/-- rate_limiter_update from rate_limiter.c.  Returns the output y together
with the instance state after the call.  y starts at 0.0 and is only
recomputed when the instance is present and initialized; in that case
dx = x - x_prev selects the rising clamp, else the falling clamp, else
pass-through, and the chosen y is stored back into x_prev. -/
def rate_limiter_update (rl_inst : Option rate_limiter_t) (x : ℚ) :
    ℚ × Option rate_limiter_t :=
  match rl_inst with
  | none => (0, none)
  | some inst =>
      if inst.is_init = true then
        let dx := x - inst.x_prev
        let y :=
          if dx ≥ inst.k_rise then inst.x_prev + inst.k_rise
          else if dx ≤ -inst.k_fall then inst.x_prev - inst.k_fall
          else x
        (y, some { inst with x_prev := y })
      else
        (0, some inst)

/-- rate_limiter_is_init from rate_limiter.c: false on a NULL handle,
otherwise the stored is_init flag.  It reads but never writes the state. -/
def rate_limiter_is_init (rl_inst : Option rate_limiter_t) : Bool :=
  match rl_inst with
  | none => false
  | some inst => inst.is_init

/-- rate_limiter_change_rate from rate_limiter.c.  Returns the instance state
after the call together with the status: on a present, initialized instance
it recomputes k_rise and k_fall from the stored period dt and returns OK;
otherwise it changes nothing and returns ERROR. -/
def rate_limiter_change_rate (rl_inst : Option rate_limiter_t)
    (rise_rate fall_rate : ℚ) :
    Option rate_limiter_t × rate_limiter_status_t :=
  match rl_inst with
  | none => (none, eRATE_LIMITER_ERROR)
  | some inst =>
      if inst.is_init = true then
        (some { inst with
                  k_rise := rate_limiter_calc_rate_factor inst.dt rise_rate
                  k_fall := rate_limiter_calc_rate_factor inst.dt fall_rate },
         eRATE_LIMITER_OK)
      else
        (some inst, eRATE_LIMITER_ERROR)

/-- An API call made against a live instance after creation: either an
update with input x or a change_rate with new rise and fall rates
(rate_limiter_is_init is read-only, so it does not appear as a state
transition). -/
inductive rate_limiter_op where
  | update (x : ℚ)
  | change_rate (rise_rate fall_rate : ℚ)

/-- The instance state after one API call. -/
def run_op (rl : Option rate_limiter_t) (op : rate_limiter_op) :
    Option rate_limiter_t :=
  match op with
  | rate_limiter_op.update x => (rate_limiter_update rl x).2
  | rate_limiter_op.change_rate r f => (rate_limiter_change_rate rl r f).1

/-- The instance state after a sequence of API calls. -/
def run_ops (rl : Option rate_limiter_t) (ops : List rate_limiter_op) :
    Option rate_limiter_t :=
  ops.foldl run_op rl

/-- The output sequence produced by feeding the inputs xs one by one into
rate_limiter_update, threading the instance state through. -/
def run_updates (rl : Option rate_limiter_t) (xs : List ℚ) : List ℚ :=
  match xs with
  | [] => []
  | x :: rest =>
      let r := rate_limiter_update rl x
      r.1 :: run_updates r.2 rest

/-
Helper lemmas shared by the claim theorems.
-/

/-- Unfolding lemma: on a present, initialized instance, rate_limiter_update
returns the three-way clamped value and stores it into x_prev. -/
lemma rate_limiter_update_eq (inst : rate_limiter_t) (x : ℚ)
    (hinit : inst.is_init = true) :
    rate_limiter_update (some inst) x =
      (if x - inst.x_prev ≥ inst.k_rise then inst.x_prev + inst.k_rise
       else if x - inst.x_prev ≤ -inst.k_fall then inst.x_prev - inst.k_fall
       else x,
       some { inst with x_prev :=
         if x - inst.x_prev ≥ inst.k_rise then inst.x_prev + inst.k_rise
         else if x - inst.x_prev ≤ -inst.k_fall then inst.x_prev - inst.k_fall
         else x }) := by
  simp [rate_limiter_update, hinit]

/-- rate_limiter_update never turns a present instance into an absent one. -/
lemma rate_limiter_update_some (inst : rate_limiter_t) (x : ℚ) :
    ∃ inst', (rate_limiter_update (some inst) x).2 = some inst' := by
  by_cases hi : inst.is_init = true
  · exact ⟨_, by rw [rate_limiter_update_eq inst x hi]⟩
  · exact ⟨inst, by simp [rate_limiter_update, hi]⟩

/-
Claim theorems.
-/

/-- Claim C2 is contradicted by the code: when dt = 1/100 > 0 and the malloc
call fails, rate_limiter_init leaves the caller's handle NULL yet still
returns eRATE_LIMITER_OK, because the C function initializes status to OK and
the inner NULL-check of the allocation has no else branch that would set it
to ERROR.  The claim (and the spec) require an ERROR status whenever
allocation fails. -/
theorem rate_limiter_init_alloc_failure_returns_ok :
    rate_limiter_init false none 1 (1/2) (1/100) = (none, eRATE_LIMITER_OK) := by
  norm_num [rate_limiter_init]

/-- Claim C3: a successful create (dt > 0 and allocation succeeds) stores
k_rise = rise_rate * dt and k_fall = fall_rate * dt, sets x_prev to 0.0,
stores the period dt, and marks the instance initialized, for every incoming
handle value. -/
theorem rate_limiter_init_success_state (handle : Option rate_limiter_t)
    (rise_rate fall_rate dt : ℚ) (hdt : 0 < dt) :
    rate_limiter_init true handle rise_rate fall_rate dt =
      (some { x_prev := 0, k_rise := rise_rate * dt, k_fall := fall_rate * dt,
              dt := dt, is_init := true }, eRATE_LIMITER_OK) := by
  simp [rate_limiter_init, rate_limiter_calc_rate_factor, hdt]

/-- Witness for C3 at rise_rate = 1, fall_rate = 1/2, dt = 1/100. -/
theorem rate_limiter_init_success_state_witness :
    rate_limiter_init true none 1 (1/2) (1/100) =
      (some { x_prev := 0, k_rise := 1 * (1/100), k_fall := (1/2) * (1/100),
              dt := 1/100, is_init := true }, eRATE_LIMITER_OK) :=
  rate_limiter_init_success_state none 1 (1/2) (1/100) (by norm_num)

/-- Claim C4: for dt > 0, create behaves identically whatever value the
caller's incoming handle holds — the result does not depend on the incoming
handle — and whenever allocation succeeds it proceeds to produce an
initialized instance. -/
theorem rate_limiter_init_ignores_incoming_handle
    (h1 h2 : Option rate_limiter_t) (alloc : Bool)
    (rise_rate fall_rate dt : ℚ) (hdt : 0 < dt) :
    rate_limiter_init alloc h1 rise_rate fall_rate dt =
      rate_limiter_init alloc h2 rise_rate fall_rate dt ∧
    (alloc = true →
      ∃ inst : rate_limiter_t,
        (rate_limiter_init alloc h1 rise_rate fall_rate dt).1 = some inst ∧
        inst.is_init = true) := by
  constructor
  · simp [rate_limiter_init, hdt]
  · intro halloc
    subst halloc
    refine ⟨{ x_prev := 0
              k_rise := rate_limiter_calc_rate_factor dt rise_rate
              k_fall := rate_limiter_calc_rate_factor dt fall_rate
              dt := dt
              is_init := true }, ?_, rfl⟩
    simp [rate_limiter_init, hdt]

/-- Witness for C4: a NULL incoming handle and a non-NULL incoming handle
give the same result when dt = 1 > 0. -/
theorem rate_limiter_init_ignores_incoming_handle_witness :
    rate_limiter_init true none 1 1 1 =
      rate_limiter_init true (some ⟨9, 9, 9, 9, false⟩) 1 1 1 :=
  (rate_limiter_init_ignores_incoming_handle none (some ⟨9, 9, 9, 9, false⟩)
    true 1 1 1 (by norm_num)).1

/-- Claim C5: update on an absent handle returns 0.0 and leaves the handle
absent; update on a present but uninitialized instance returns 0.0 and
leaves the instance unchanged; rate_limiter_is_init is false on an absent
handle and otherwise returns the stored flag, and it never writes state
(in the embedding it is a pure function of the state). -/
theorem rate_limiter_uninit_safety (x : ℚ) (inst : rate_limiter_t) :
    rate_limiter_update none x = (0, none) ∧
    (inst.is_init = false → rate_limiter_update (some inst) x = (0, some inst)) ∧
    rate_limiter_is_init none = false ∧
    rate_limiter_is_init (some inst) = inst.is_init := by
  refine ⟨rfl, ?_, rfl, rfl⟩
  intro h
  simp [rate_limiter_update, h]

/-- Witness for C5 on an uninitialized instance and input 5. -/
theorem rate_limiter_uninit_safety_witness :
    rate_limiter_update (some ⟨1, 2, 3, 4, false⟩) 5 =
      (0, some ⟨1, 2, 3, 4, false⟩) :=
  (rate_limiter_uninit_safety 5 ⟨1, 2, 3, 4, false⟩).2.1 rfl

/-- Claim C6: on a present, initialized instance change_rate stores
k_rise = rise_rate * dt and k_fall = fall_rate * dt using the stored period
dt and returns OK; on an absent or uninitialized instance it changes nothing
and returns ERROR. -/
theorem rate_limiter_change_rate_contract (inst : rate_limiter_t)
    (rise_rate fall_rate : ℚ) :
    (inst.is_init = true →
       rate_limiter_change_rate (some inst) rise_rate fall_rate =
         (some { inst with k_rise := rise_rate * inst.dt,
                           k_fall := fall_rate * inst.dt },
          eRATE_LIMITER_OK)) ∧
    (inst.is_init = false →
       rate_limiter_change_rate (some inst) rise_rate fall_rate =
         (some inst, eRATE_LIMITER_ERROR)) ∧
    rate_limiter_change_rate none rise_rate fall_rate =
      (none, eRATE_LIMITER_ERROR) := by
  refine ⟨?_, ?_, rfl⟩ <;> intro h <;>
    simp [rate_limiter_change_rate, rate_limiter_calc_rate_factor, h]

/-- Witness for C6 on an initialized instance with period 2. -/
theorem rate_limiter_change_rate_contract_witness :
    rate_limiter_change_rate (some ⟨7, 1, 1, 2, true⟩) 3 5 =
      (some ⟨7, 3 * 2, 5 * 2, 2, true⟩, eRATE_LIMITER_OK) :=
  (rate_limiter_change_rate_contract ⟨7, 1, 1, 2, true⟩ 3 5).1 rfl

/-- Claim C10: on an initialized instance with strictly positive rise and
fall increments, update at x equal to the stored x_prev returns x and leaves
the instance state unchanged: such a state is a fixpoint of the update
recurrence. -/
theorem rate_limiter_update_fixpoint (inst : rate_limiter_t)
    (hinit : inst.is_init = true)
    (hr : 0 < inst.k_rise) (hf : 0 < inst.k_fall) :
    rate_limiter_update (some inst) inst.x_prev = (inst.x_prev, some inst) := by
  rw [rate_limiter_update_eq inst inst.x_prev hinit]
  have h1 : ¬ (inst.x_prev - inst.x_prev ≥ inst.k_rise) := by
    rw [sub_self]
    exact not_le.mpr hr
  have h2 : ¬ (inst.x_prev - inst.x_prev ≤ -inst.k_fall) := by
    rw [sub_self, le_neg, neg_zero]
    exact not_le.mpr hf
  rw [if_neg h1, if_neg h2]

/-- Witness for C10 at x_prev = 3 with unit increments. -/
theorem rate_limiter_update_fixpoint_witness :
    rate_limiter_update (some ⟨3, 1, 1, 1, true⟩) 3 =
      (3, some ⟨3, 1, 1, 1, true⟩) :=
  rate_limiter_update_fixpoint ⟨3, 1, 1, 1, true⟩ rfl (by norm_num) (by norm_num)

/-- Claim C1 as stated is false: with previous output p = 0, rise increment
r = -2 and fall increment f = -2, the input x = -1 satisfies
x - p = -1 ≤ -f = 2, yet update returns p + r = -2, not p - f = 2, because
the code tests the rising clamp first and -1 ≥ r = -2 also holds. -/
theorem rate_limiter_update_fall_clause_cex :
    ((-1 : ℚ) - (0 : ℚ) ≤ -(-2 : ℚ)) ∧
    (rate_limiter_update
        (some { x_prev := 0, k_rise := -2, k_fall := -2, dt := 1, is_init := true })
        (-1)).1 ≠ (0 : ℚ) - (-2 : ℚ) := by
  constructor
  · norm_num
  · rw [rate_limiter_update_eq _ _ rfl]
    norm_num

/-- Claim C1 (amended): on a present, initialized instance with previous
output p, rise increment r and fall increment f, update returns p + r when
x - p ≥ r; it returns p - f when x - p < r and x - p ≤ -f (the fall clamp
applies only when the rise clamp does not); it returns exactly x when
-f < x - p < r; and in every case the returned value is stored as the new
previous output. -/
theorem rate_limiter_update_clamp_cases (inst : rate_limiter_t) (x : ℚ)
    (hinit : inst.is_init = true) :
    (x - inst.x_prev ≥ inst.k_rise →
       (rate_limiter_update (some inst) x).1 = inst.x_prev + inst.k_rise) ∧
    (x - inst.x_prev < inst.k_rise → x - inst.x_prev ≤ -inst.k_fall →
       (rate_limiter_update (some inst) x).1 = inst.x_prev - inst.k_fall) ∧
    (-inst.k_fall < x - inst.x_prev → x - inst.x_prev < inst.k_rise →
       (rate_limiter_update (some inst) x).1 = x) ∧
    (rate_limiter_update (some inst) x).2 =
      some { inst with x_prev := (rate_limiter_update (some inst) x).1 } := by
  rw [rate_limiter_update_eq inst x hinit]
  refine ⟨?_, ?_, ?_, rfl⟩
  · intro h
    rw [if_pos h]
  · intro hlt hle
    rw [if_neg (not_le.mpr hlt), if_pos hle]
  · intro hgt hlt
    rw [if_neg (not_le.mpr hlt), if_neg (not_le.mpr hgt)]

/-- Witness for the amended C1: the spec's own scenario dt = 1/100,
rise increment 1/100, fall increment 1/200, previous output 0, input 1:
the rise clamp fires and returns 1/100. -/
theorem rate_limiter_update_clamp_cases_witness :
    (rate_limiter_update
        (some { x_prev := 0, k_rise := 1/100, k_fall := 1/200, dt := 1/100,
                is_init := true }) 1).1 = 0 + 1/100 :=
  (rate_limiter_update_clamp_cases
      { x_prev := 0, k_rise := 1/100, k_fall := 1/200, dt := 1/100,
        is_init := true } 1 rfl).1 (by norm_num)

/-- Claim C9: on a present, initialized instance whose rise and fall
increments are both non-negative, the value returned by update lies in the
closed interval from x_prev - k_fall to x_prev + k_rise, and that value is
stored as the new x_prev: each step moves the stored output up by at most
k_rise and down by at most k_fall. -/
theorem rate_limiter_update_output_bounded (inst : rate_limiter_t) (x : ℚ)
    (hinit : inst.is_init = true)
    (hr : 0 ≤ inst.k_rise) (hf : 0 ≤ inst.k_fall) :
    inst.x_prev - inst.k_fall ≤ (rate_limiter_update (some inst) x).1 ∧
    (rate_limiter_update (some inst) x).1 ≤ inst.x_prev + inst.k_rise ∧
    (rate_limiter_update (some inst) x).2 =
      some { inst with x_prev := (rate_limiter_update (some inst) x).1 } := by
  rw [rate_limiter_update_eq inst x hinit]
  split_ifs with h1 h2
  · exact ⟨show inst.x_prev - inst.k_fall ≤ inst.x_prev + inst.k_rise by linarith,
           le_refl _, rfl⟩
  · exact ⟨le_refl _,
           show inst.x_prev - inst.k_fall ≤ inst.x_prev + inst.k_rise by linarith,
           rfl⟩
  · have hlt1 : x - inst.x_prev < inst.k_rise := not_le.mp h1
    have hlt2 : -inst.k_fall < x - inst.x_prev := not_le.mp h2
    exact ⟨show inst.x_prev - inst.k_fall ≤ x by linarith,
           show x ≤ inst.x_prev + inst.k_rise by linarith, rfl⟩

/-- Witness for C9: unit increments around x_prev = 0 with input 7 yield an
output inside the interval from -1 to 1 (namely the clamped value 1). -/
theorem rate_limiter_update_output_bounded_witness :
    (0 : ℚ) - 1 ≤ (rate_limiter_update (some ⟨0, 1, 1, 1, true⟩) 7).1 ∧
    (rate_limiter_update (some ⟨0, 1, 1, 1, true⟩) 7).1 ≤ (0 : ℚ) + 1 ∧
    (rate_limiter_update (some ⟨0, 1, 1, 1, true⟩) 7).2 =
      some ⟨(rate_limiter_update (some ⟨0, 1, 1, 1, true⟩) 7).1, 1, 1, 1, true⟩ :=
  rate_limiter_update_output_bounded ⟨0, 1, 1, 1, true⟩ 7 rfl
    (by norm_num) (by norm_num)

/-- One API call keeps the instance present and never changes its stored
period dt. -/
lemma run_op_dt (rl : Option rate_limiter_t) (op : rate_limiter_op)
    (inst' : rate_limiter_t) (h : run_op rl op = some inst') :
    ∃ inst, rl = some inst ∧ inst'.dt = inst.dt := by
  match rl, op with
  | none, rate_limiter_op.update x =>
      simp [run_op, rate_limiter_update] at h
  | none, rate_limiter_op.change_rate r f =>
      simp [run_op, rate_limiter_change_rate] at h
  | some inst, rate_limiter_op.update x =>
      refine ⟨inst, rfl, ?_⟩
      by_cases hi : inst.is_init = true
      · rw [show run_op (some inst) (rate_limiter_op.update x) =
              (rate_limiter_update (some inst) x).2 from rfl,
           rate_limiter_update_eq inst x hi] at h
        cases h
        rfl
      · rw [show run_op (some inst) (rate_limiter_op.update x) =
              (rate_limiter_update (some inst) x).2 from rfl] at h
        simp [rate_limiter_update, hi] at h
        rw [← h]
  | some inst, rate_limiter_op.change_rate r f =>
      refine ⟨inst, rfl, ?_⟩
      by_cases hi : inst.is_init = true
      · simp [run_op, rate_limiter_change_rate, hi] at h
        rw [← h]
      · simp [run_op, rate_limiter_change_rate, hi] at h
        rw [← h]

/-- A whole sequence of API calls keeps the instance present and never
changes its stored period dt. -/
lemma run_ops_dt (ops : List rate_limiter_op) :
    ∀ (rl : Option rate_limiter_t) (inst' : rate_limiter_t),
      run_ops rl ops = some inst' →
      ∃ inst, rl = some inst ∧ inst'.dt = inst.dt := by
  induction ops with
  | nil =>
      intro rl inst' h
      exact ⟨inst', h, rfl⟩
  | cons op rest ih =>
      intro rl inst' h
      have hrest : run_ops (run_op rl op) rest = some inst' := h
      obtain ⟨mid, hmid, hdt1⟩ := ih (run_op rl op) inst' hrest
      obtain ⟨inst, hinst, hdt2⟩ := run_op_dt rl op mid hmid
      exact ⟨inst, hinst, by rw [hdt1, hdt2]⟩

/-- Claim C7: update never changes k_rise, k_fall or dt; change_rate never
changes x_prev or dt; and after a successful create with period dt > 0,
every sequence of update and change_rate calls leaves the stored period
equal to dt, so period > 0 holds for the lifetime of the instance. -/
theorem rate_limiter_lifetime_invariants (handle : Option rate_limiter_t)
    (rise_rate fall_rate dt : ℚ) (hdt : 0 < dt)
    (ops : List rate_limiter_op) :
    (∀ (inst inst' : rate_limiter_t) (x : ℚ),
        (rate_limiter_update (some inst) x).2 = some inst' →
        inst'.k_rise = inst.k_rise ∧ inst'.k_fall = inst.k_fall ∧
        inst'.dt = inst.dt) ∧
    (∀ (inst inst' : rate_limiter_t) (r f : ℚ),
        (rate_limiter_change_rate (some inst) r f).1 = some inst' →
        inst'.x_prev = inst.x_prev ∧ inst'.dt = inst.dt) ∧
    (∀ inst' : rate_limiter_t,
        run_ops (rate_limiter_init true handle rise_rate fall_rate dt).1 ops =
          some inst' →
        inst'.dt = dt ∧ 0 < inst'.dt) := by
  refine ⟨?_, ?_, ?_⟩
  · intro inst inst' x h
    by_cases hi : inst.is_init = true
    · rw [rate_limiter_update_eq inst x hi] at h
      cases h
      exact ⟨rfl, rfl, rfl⟩
    · simp [rate_limiter_update, hi] at h
      rw [← h]
      exact ⟨rfl, rfl, rfl⟩
  · intro inst inst' r f h
    by_cases hi : inst.is_init = true
    · simp [rate_limiter_change_rate, hi] at h
      rw [← h]
      exact ⟨rfl, rfl⟩
    · simp [rate_limiter_change_rate, hi] at h
      rw [← h]
      exact ⟨rfl, rfl⟩
  · intro inst' h
    have hinit := rate_limiter_init_success_state handle rise_rate fall_rate dt hdt
    rw [show (rate_limiter_init true handle rise_rate fall_rate dt).1 =
          some { x_prev := 0, k_rise := rise_rate * dt, k_fall := fall_rate * dt,
                 dt := dt, is_init := true } from by rw [hinit]] at h
    obtain ⟨inst0, hinst0, hdteq⟩ := run_ops_dt ops _ inst' h
    cases hinst0
    exact ⟨hdteq, by rw [hdteq]; exact hdt⟩

/-- Witness for C7: after create with dt = 1 and no further calls, the
stored period is 1 and positive. -/
theorem rate_limiter_lifetime_invariants_witness :
    ({ x_prev := 0, k_rise := 1 * 1, k_fall := 1 * 1, dt := 1,
       is_init := true } : rate_limiter_t).dt = 1 ∧
    (0 : ℚ) < ({ x_prev := 0, k_rise := 1 * 1, k_fall := 1 * 1, dt := 1,
                 is_init := true } : rate_limiter_t).dt :=
  (rate_limiter_lifetime_invariants none 1 1 1 (by norm_num) []).2.2
    { x_prev := 0, k_rise := 1 * 1, k_fall := 1 * 1, dt := 1, is_init := true }
    (by norm_num [run_ops, rate_limiter_init, rate_limiter_calc_rate_factor])

/-- Two instance states that agree on x_prev, k_rise, k_fall and is_init are
indistinguishable to the update recurrence (dt is not read by update). -/
def obs_agree (a b : rate_limiter_t) : Prop :=
  a.x_prev = b.x_prev ∧ a.k_rise = b.k_rise ∧ a.k_fall = b.k_fall ∧
  a.is_init = b.is_init

/-- One update step returns the same output on observationally equal states
and keeps them observationally equal. -/
lemma rate_limiter_update_congr (a b : rate_limiter_t) (x : ℚ)
    (h : obs_agree a b) :
    (rate_limiter_update (some a) x).1 = (rate_limiter_update (some b) x).1 ∧
    (∀ a' b', (rate_limiter_update (some a) x).2 = some a' →
              (rate_limiter_update (some b) x).2 = some b' →
              obs_agree a' b') := by
  obtain ⟨hx, hr, hf, hi⟩ := h
  by_cases hia : a.is_init = true
  · have hib : b.is_init = true := hi ▸ hia
    rw [rate_limiter_update_eq a x hia, rate_limiter_update_eq b x hib,
        hx, hr, hf]
    refine ⟨rfl, ?_⟩
    intro a' b' ha hb
    cases ha
    cases hb
    exact ⟨rfl, rfl, rfl, hi⟩
  · have hib : ¬ b.is_init = true := fun hb => hia (hi ▸ hb)
    simp only [rate_limiter_update, hia, hib, if_false]
    refine ⟨rfl, ?_⟩
    intro a' b' ha hb
    cases ha
    cases hb
    exact ⟨hx, hr, hf, hi⟩

/-- Feeding the same input list into observationally equal states yields the
same output list. -/
lemma run_updates_congr (xs : List ℚ) :
    ∀ a b : rate_limiter_t, obs_agree a b →
      run_updates (some a) xs = run_updates (some b) xs := by
  induction xs with
  | nil => intro a b _; rfl
  | cons x rest ih =>
      intro a b h
      obtain ⟨a', ha'⟩ := rate_limiter_update_some a x
      obtain ⟨b', hb'⟩ := rate_limiter_update_some b x
      have hy := (rate_limiter_update_congr a b x h).1
      have hagree := (rate_limiter_update_congr a b x h).2 a' b' ha' hb'
      show (rate_limiter_update (some a) x).1 ::
          run_updates (rate_limiter_update (some a) x).2 rest =
        (rate_limiter_update (some b) x).1 ::
          run_updates (rate_limiter_update (some b) x).2 rest
      rw [hy, ha', hb', ih a' b' hagree]

/-- Claim C8: update is a deterministic function of the instance state and
the input: the output of each call is stored as x_prev for the next call,
and replaying any input sequence from two states with the same x_prev,
k_rise, k_fall and is_init flag (the state read by update) yields identical
output sequences. -/
theorem rate_limiter_replay_deterministic (a b : rate_limiter_t)
    (xs : List ℚ) (hx : a.x_prev = b.x_prev) (hr : a.k_rise = b.k_rise)
    (hf : a.k_fall = b.k_fall) (hi : a.is_init = b.is_init) :
    run_updates (some a) xs = run_updates (some b) xs ∧
    (∀ (inst : rate_limiter_t) (x : ℚ), inst.is_init = true →
       (rate_limiter_update (some inst) x).2 =
         some { inst with x_prev := (rate_limiter_update (some inst) x).1 }) := by
  constructor
  · exact run_updates_congr xs a b ⟨hx, hr, hf, hi⟩
  · intro inst x hinit
    rw [rate_limiter_update_eq inst x hinit]

/-- Witness for C8: two states equal in every field read by update (their
periods differ) produce the same outputs on the input list 1, 2, 3. -/
theorem rate_limiter_replay_deterministic_witness :
    run_updates (some ⟨0, 1, 1, 1, true⟩) [1, 2, 3] =
      run_updates (some ⟨0, 1, 1, 2, true⟩) [1, 2, 3] :=
  (rate_limiter_replay_deterministic ⟨0, 1, 1, 1, true⟩ ⟨0, 1, 1, 2, true⟩
    [1, 2, 3] rfl rfl rfl rfl).1

end RateLimiter
